import Mathlib

/-!
Verification of the Vantage Geo-AI orchestration core.

This file gives a shallow embedding, in Lean 4, of the asynchronous
orchestration layer of the Vantage Geo-AI browser front-end:

* the service layer (services/genai.ts): error normalisation
  (formatError), the Itinerary Orchestrator (generateDeepTravelItinerary,
  generateLocationPreviews), the Hidden-Spots Orchestrator
  (searchHiddenSpots), and the Video Synthesis Orchestrator
  (generateDroneVideo with its fixed-interval polling loop);
* the view-layer state machines (TravelAgent, VeoGenerator): the
  handleDeepPlan, handleHiddenSpots, handleSendMessage and handleGenerate
  event handlers acting on component state.

External effects (the hosted generative-AI service, JSON.parse of the host
runtime, fetch) are passed in as explicit parameters: a stub response, a
parse function, a polling oracle.  JavaScript strings are modelled as Lean
strings (lists of characters); a JavaScript value that can be a string or
undefined is modelled as String with the empty string standing for the
falsy cases, matching the truthiness tests in the source.  Asynchronous
handlers are modelled by the quiesced state after all launched requests
have settled, paired with a flag recording whether any external request
was issued.
-/

/-! ### Data model (types.ts) -/

/-- Message roles of the chat transcript, from the union type
in types.ts (role is user or model). -/
inductive ChatRole where
  | user
  | model
deriving Repr, DecidableEq

/-- ChatMessage from types.ts (the optional isThinking and sources fields
are never written by the code under scrutiny and are omitted). -/
structure ChatMessage where
  id : String
  role : ChatRole
  text : String
deriving Repr, DecidableEq

/-- HiddenGem from types.ts (imageUrl is tracked separately in the
hiddenSpotImages map by the component, as in the source). -/
structure HiddenGem where
  name : String
  description : String
  location_hint : String
deriving Repr, DecidableEq

/-- One entry of weather.crowd_curve: a month name and an integer score. -/
structure CrowdPoint where
  month : String
  score : Int
deriving Repr, DecidableEq

/-- TravelPlan.disaster_profile from types.ts. -/
structure DisasterProfile where
  zone_type : String
  risk_score : String
  details : String
deriving Repr, DecidableEq

/-- TravelPlan.weather from types.ts. -/
structure WeatherInfo where
  crowd_levels : String
  crowd_curve : List CrowdPoint
  best_time_to_visit : String
  forecast_summary : String
deriving Repr, DecidableEq

/-- TravelPlan.photography.technical_settings from types.ts. -/
structure TechnicalSettings where
  iso : String
  shutter_speed : String
  aperture : String
  notes : String
deriving Repr, DecidableEq

/-- TravelPlan.photography from types.ts. -/
structure PhotographyInfo where
  basic_guide : String
  technical_settings : TechnicalSettings
deriving Repr, DecidableEq

/-- TravelPlan.trip_guide from types.ts. -/
structure TripGuide where
  transport_system : String
  travel_tips : List String
  packing_suggestions : List String
  common_scams : String
deriving Repr, DecidableEq

/-- TravelPlan from types.ts. -/
structure TravelPlan where
  confidence : String
  overview : String
  disaster_profile : DisasterProfile
  safety_measures : List String
  itinerary : List String
  weather : WeatherInfo
  photography : PhotographyInfo
  trip_guide : TripGuide
deriving Repr, DecidableEq

/-! ### Error normalisation (services/genai.ts, formatError) -/

/-- Substring occurrence on character lists: pat occurs at the head of the
list or in its tail.  This models the semantics of the JavaScript
String.prototype.includes used by formatError. -/
def hasSubstr (pat : List Char) : List Char → Bool
  | [] => pat.isEmpty
  | c :: cs => pat.isPrefixOf (c :: cs) || hasSubstr pat cs

/-- msg.includes(pat) of JavaScript, on the Lean model of strings. -/
def strContains (s pat : String) : Bool :=
  hasSubstr pat.data s.data

/-- formatError from services/genai.ts, acting on the message text of the
caught error (error.message, with the empty string standing for a missing
message).  It classifies by substring and otherwise wraps the raw text. -/
def formatError (msg : String) : String :=
  if strContains msg "API key" || strContains msg "authentication" then
    "Authentication failed. Please check your API key settings."
  else if strContains msg "429" then
    "Rate limit exceeded. The API is busy, please wait a moment and try again."
  else if strContains msg "503" then
    "Service overloaded or unavailable. Please try again later."
  else if strContains msg "SAFETY" then
    "The request was blocked due to safety settings."
  else
    "AI Request Failed: " ++ msg

/-! ### Itinerary and Hidden-Spots Orchestrators (services/genai.ts) -/

/-- generateDeepTravelItinerary from services/genai.ts.  The structured
call is modelled by its outcome resp (error = the request threw with that
message, ok t = it returned response text t, with the empty string for a
missing text, matching the falsiness test in the source); JSON.parse
followed by the unchecked cast to TravelPlan is modelled by the host parse
function.  Every throw site is wrapped by the outer catch through
formatError, exactly as in the source. -/
def generateDeepTravelItinerary (resp : Except String String)
    (parse : String → Option TravelPlan) : Except String TravelPlan :=
  match resp with
  | Except.error e => Except.error (formatError e)
  | Except.ok t =>
    if t = "" then
      Except.error (formatError "The model returned an empty response.")
    else
      match parse t with
      | none => Except.error (formatError "Failed to parse the travel plan data.")
      | some plan => Except.ok plan

/-- searchHiddenSpots from services/genai.ts: same request/parse pipeline
as the itinerary call, and on parse success the array is truncated with
slice(0, 5), modelled by List.take 5. -/
def searchHiddenSpots (resp : Except String String)
    (parse : String → Option (List HiddenGem)) : Except String (List HiddenGem) :=
  match resp with
  | Except.error e => Except.error (formatError e)
  | Except.ok t =>
    if t = "" then
      Except.error (formatError "No results found for hidden spots.")
    else
      match parse t with
      | none => Except.error (formatError "Failed to parse hidden spots data.")
      | some spots => Except.ok (spots.take 5)

/-- The inline-data wrapper used for every generated preview image in
services/genai.ts. -/
def previewDataUri (d : String) : String :=
  "data:image/png;base64," ++ d

/-- generateLocationPreviews from services/genai.ts.  Each of the three
per-prompt requests is modelled by its outcome (some bytes = the response
carried an inline image with those base64 bytes, none = the request threw
or carried no image part; both return null in the source).  The results
are wrapped as data URIs and the nulls are filtered out; no branch can
throw, so the function is total. -/
def generateLocationPreviews (raw : List (Option String)) : List String :=
  (raw.map (fun o => o.map previewDataUri)).filterMap id

/-! ### Video Synthesis Orchestrator (services/genai.ts) -/

/-- The video-synthesis job object threaded through the polling loop:
name identifies the job, done is its terminal flag, error its terminal
error message (some m = operation.error present with message m, the empty
string standing for a missing message), videoUri the retrieval link of the
first generated video when present. -/
structure VideoOp where
  name : String
  done : Bool
  error : Option String
  videoUri : Option String
deriving Repr, DecidableEq

/-- Observable events of the polling loop: the fixed wait (in ms) and a
status query carrying the handle it was issued with. -/
inductive PollEvent where
  | wait (ms : Nat)
  | query (handle : String)
deriving Repr, DecidableEq

/-- The while-loop of generateDroneVideo: while the operation is not done,
wait 5000 ms, then re-query, the query being issued with the operation
currently held.  getOp k op is the result of the k-th status query when
issued with op.  The source loop is unbounded; fuel bounds the number of
queries the model will unfold, and none means the fuel was exhausted with
the loop still running. -/
def pollLoop (getOp : Nat → VideoOp → VideoOp) (fuel k : Nat) (op : VideoOp) :
    Option (List PollEvent × VideoOp) :=
  if op.done then some ([], op)
  else
    match fuel with
    | 0 => none
    | f + 1 =>
      match pollLoop getOp f (k + 1) (getOp k op) with
      | some (evs, fin) =>
        some (PollEvent.wait 5000 :: PollEvent.query op.name :: evs, fin)
      | none => none

/-- The regex replace of generateDroneVideo stripping a leading
data:image\/(png|jpeg|jpg);base64, prefix: anchored, so the match can only
be at the start, and only those three media types are matched. -/
def cleanBase64 (s : String) : String :=
  if "data:image/png;base64,".data.isPrefixOf s.data then String.mk (s.data.drop 22)
  else if "data:image/jpeg;base64,".data.isPrefixOf s.data then String.mk (s.data.drop 23)
  else if "data:image/jpg;base64,".data.isPrefixOf s.data then String.mk (s.data.drop 22)
  else s

/-- What generateDroneVideo does once the polling loop has reached a
terminal operation (lines after the loop in services/genai.ts): a present
error throws its message (or the fixed fallback when the message is
missing), a missing video URI throws, a failed fetch throws, otherwise the
fetched body is materialised as a local object URL; every throw is wrapped
by the outer catch through formatError. -/
def droneVideoOutcome (fin : VideoOp) (fetchVideo : String → Option String) :
    Except String String :=
  match fin.error with
  | some m =>
    Except.error (formatError (if m = "" then "Video generation failed" else m))
  | none =>
    match fin.videoUri with
    | none => Except.error (formatError "No video URI returned")
    | some uri =>
      match fetchVideo uri with
      | none => Except.error (formatError "Failed to download video content")
      | some localUrl => Except.ok localUrl

deriving instance DecidableEq for Except

/-- One run of generateDroneVideo: the image bytes submitted to the
video-synthesis job, the polling trace, and the value the promise settles
with (ok = the local video URL, error = the thrown message). -/
structure DroneVideoRun where
  submittedBytes : String
  events : List PollEvent
  result : Except String String
deriving Repr, DecidableEq

/-- generateDroneVideo from services/genai.ts.  The submission is modelled
by submit, applied to the cleaned image bytes, yielding the initial
operation or a thrown message; getOp models operations.getVideosOperation;
fetchVideo models the authenticated fetch plus URL.createObjectURL (none =
response not ok).  none is returned only when fuel is exhausted with the
job still pending, which in the source is the loop still spinning. -/
def generateDroneVideo (imageBase64 : String)
    (submit : String → Except String VideoOp)
    (getOp : Nat → VideoOp → VideoOp)
    (fetchVideo : String → Option String)
    (fuel : Nat) : Option DroneVideoRun :=
  match submit (cleanBase64 imageBase64) with
  | Except.error e =>
    some { submittedBytes := cleanBase64 imageBase64
           events := []
           result := Except.error (formatError e) }
  | Except.ok op0 =>
    match pollLoop getOp fuel 0 op0 with
    | none => none
    | some (evs, fin) =>
      some { submittedBytes := cleanBase64 imageBase64
             events := evs
             result := droneVideoOutcome fin fetchVideo }

/-! ### TravelAgent component state (TravelAgent.tsx) -/

/-- The mode union type of TravelAgent.tsx (plan or hidden). -/
inductive AgentMode where
  | plan
  | hidden
deriving Repr, DecidableEq

/-- The state hooks of the TravelAgent component, one field per useState
or useRef slot.  chatSession models chatRef.current: none when no chat is
open, some ctx when a chat created by createTravelChat over the serialised
plan ctx is held. -/
structure AgentState where
  location : String
  loading : Bool
  mode : AgentMode
  activeTab : String
  error : Option String
  travelData : Option TravelPlan
  images : List String
  imagesLoading : Bool
  hiddenSpots : Option (List HiddenGem)
  hiddenSpotImages : List (String × String)
  chatSession : Option String
  chatMessages : List ChatMessage
  chatInput : String
  chatLoading : Bool
deriving Repr, DecidableEq

/-- clearResults from TravelAgent.tsx. -/
def clearResults (s : AgentState) : AgentState :=
  { s with travelData := none
           hiddenSpots := none
           hiddenSpotImages := []
           images := []
           error := none
           chatMessages := []
           chatSession := none
           activeTab := "overview" }

/-- The fixed message seeding the transcript after a successful plan. -/
def initChatMessage : ChatMessage :=
  { id := "init"
    role := ChatRole.model
    text := "I have analyzed the location. Ask me anything about the plan or the destination!" }

/-- handleDeepPlan from TravelAgent.tsx, modelled at quiescence (both the
itinerary request and the fire-and-forget preview batch have settled).
itinRes is the outcome of generateDeepTravelItinerary, previewImgs the
resolved preview list, serialize the JSON.stringify used to seed the chat
context.  The boolean records whether any external request was issued:
the empty-location guard returns before any. -/
def handleDeepPlan (s : AgentState) (itinRes : Except String TravelPlan)
    (previewImgs : List String) (serialize : TravelPlan → String) :
    AgentState × Bool :=
  if s.location = "" then (s, false)
  else
    let s1 := clearResults { s with loading := true }
    let s2 := { s1 with mode := AgentMode.plan, imagesLoading := true }
    let s3 := { s2 with images := previewImgs, imagesLoading := false }
    let s4 :=
      match itinRes with
      | Except.ok plan =>
        { s3 with travelData := some plan
                  chatSession := some (serialize plan)
                  chatMessages := [initChatMessage] }
      | Except.error e =>
        { s3 with
            error := some (if e = "" then
                             "An unexpected error occurred while generating the plan."
                           else e) }
    ({ s4 with loading := false }, true)

/-- handleHiddenSpots from TravelAgent.tsx, modelled at quiescence.
spotsRes is the outcome of searchHiddenSpots; spotImg gives, per spot
name, the settled outcome of its generateSpotImage request (none
contributes no entry to the map, as in the source). -/
def handleHiddenSpots (s : AgentState)
    (spotsRes : Except String (List HiddenGem))
    (spotImg : String → Option String) : AgentState × Bool :=
  if s.location = "" then (s, false)
  else
    let s1 := clearResults { s with loading := true }
    let s2 := { s1 with mode := AgentMode.hidden }
    let s3 :=
      match spotsRes with
      | Except.ok spots =>
        { s2 with hiddenSpots := some spots
                  hiddenSpotImages :=
                    spots.filterMap
                      (fun (g : HiddenGem) => (spotImg g.name).map (fun u => (g.name, u))) }
      | Except.error e =>
        { s2 with
            error := some (if e = "" then
                             "An unexpected error occurred while searching."
                           else e) }
    ({ s3 with loading := false }, true)

/-- The trim of JavaScript String.prototype.trim: whitespace stripped from
both ends, modelled with Char.isWhitespace. -/
def jsTrim (s : String) : String :=
  String.mk (((s.data.dropWhile Char.isWhitespace).reverse.dropWhile
    Char.isWhitespace).reverse)

/-- handleSendMessage from TravelAgent.tsx.  sendRes is the outcome of
chat.sendMessage: error = the request threw (the string is the raw error,
which the handler ignores), ok t = it returned with response text t (the
empty string standing for a missing text, as tested by the source).  idU
and idM model the two Date.now()-derived message ids.  The boolean records
whether a request was issued: the guard on an empty trimmed input or an
absent session returns before any. -/
def handleSendMessage (s : AgentState) (sendRes : Except String String)
    (idU idM : String) : AgentState × Bool :=
  if jsTrim s.chatInput == "" || s.chatSession.isNone then (s, false)
  else
    let userMsg := s.chatInput
    let s1 := { s with chatInput := ""
                       chatMessages := s.chatMessages ++
                         [ChatMessage.mk idU ChatRole.user userMsg]
                       chatLoading := true }
    let s2 : AgentState :=
      match sendRes with
      | Except.ok t =>
        { s1 with chatMessages := s1.chatMessages ++
            [ChatMessage.mk idM ChatRole.model
              (if t = "" then "I couldn\x27t generate a response." else t)] }
      | Except.error _ =>
        { s1 with chatMessages := s1.chatMessages ++
            [ChatMessage.mk idM ChatRole.model
              "Sorry, I encountered an error answering that."] }
    ({ s2 with chatLoading := false }, true)

/-! ### VeoGenerator component state (components/VeoGenerator.tsx) -/

/-- The status union of VideoGenerationState from types.ts. -/
inductive VideoStatus where
  | idle
  | generating
  | completed
  | error
deriving Repr, DecidableEq

/-- The state hooks of the VeoGenerator component: the entered location,
the selected aspect ratio, the VideoGenerationState object (status,
videoUri, error), and the stage-progress text. -/
structure VeoState where
  locationName : String
  aspectRatio : String
  status : VideoStatus
  videoUri : Option String
  videoError : Option String
  loadingStep : String
deriving Repr, DecidableEq

/-- handleGenerate from VeoGenerator.tsx, modelled at quiescence.  refRes
is the outcome of generateReferenceImage (ok = the reference image data
URI); videoRes, applied to that image, the outcome of generateDroneVideo
(ok = the local video URL).  setVideoState replaces the whole object, so
fields absent from the written object are cleared.  The boolean records
whether any request was issued: the empty-name guard returns before any. -/
def handleGenerate (v : VeoState) (refRes : Except String String)
    (videoRes : String → Except String String) : VeoState × Bool :=
  if v.locationName = "" then (v, false)
  else
    let v1 := { v with status := VideoStatus.generating
                       videoUri := none
                       videoError := none
                       loadingStep := "Locating and capturing view (Image)..." }
    let v2 :=
      match refRes with
      | Except.error e =>
        { v1 with status := VideoStatus.error
                  videoUri := none
                  videoError := some (if e = "" then "Generation failed" else e) }
      | Except.ok img =>
        match videoRes img with
        | Except.error e =>
          { v1 with status := VideoStatus.error
                    videoUri := none
                    videoError := some (if e = "" then "Generation failed" else e) }
        | Except.ok url =>
          { v1 with status := VideoStatus.completed
                    videoUri := some url
                    videoError := none }
    ({ v2 with loadingStep := "" }, true)

/-! ### Concrete fixtures for witnesses and counterexamples -/

/-- A stub operation still pending: the service has not finished the job. -/
def pendOp : VideoOp :=
  { name := "veo-job-1", done := false, error := none, videoUri := none }

/-- A stub operation in the terminal success state, carrying a video URI. -/
def doneOp : VideoOp :=
  { name := "veo-job-1", done := true, error := none,
    videoUri := some "https://video.example/1" }

/-- A stub operation in the terminal error state, with error text boom. -/
def errorOp : VideoOp :=
  { name := "veo-job-1", done := true, error := some "boom", videoUri := none }

/-- A status-query stub reporting pending twice, then terminal success on
the third query. -/
def poll3 : Nat → VideoOp → VideoOp := fun k _ => if k < 2 then pendOp else doneOp

/-- A status-query stub reporting the terminal error state at once. -/
def pollToError : Nat → VideoOp → VideoOp := fun _ _ => errorOp

/-- A submission stub returning the pending operation. -/
def submitOk : String → Except String VideoOp := fun _ => Except.ok pendOp

/-- A fetch stub that succeeds with a local object URL. -/
def fetchOk : String → Option String := fun _ => some "blob:local-video"

/-- The run generateDroneVideo produces from the poll3 stub on a
png-prefixed input. -/
def pngRun : DroneVideoRun :=
  { submittedBytes := "AAAA"
    events := [PollEvent.wait 5000, PollEvent.query "veo-job-1",
               PollEvent.wait 5000, PollEvent.query "veo-job-1",
               PollEvent.wait 5000, PollEvent.query "veo-job-1"]
    result := Except.ok "blob:local-video" }

/-- The well-formedness of weather.crowd_curve stated by the spec: exactly
12 entries, every score within 0 to 100. -/
def crowdCurveWellFormed (p : TravelPlan) : Prop :=
  p.weather.crowd_curve.length = 12 ∧
  ∀ c ∈ p.weather.crowd_curve, 0 ≤ c.score ∧ c.score ≤ 100

/-- A sample plan whose crowd curve is well formed. -/
def samplePlan : TravelPlan :=
  { confidence := "High"
    overview := "o"
    disaster_profile := { zone_type := "z", risk_score := "7/10", details := "d" }
    safety_measures := ["s1"]
    itinerary := ["Day 1"]
    weather :=
      { crowd_levels := "c"
        crowd_curve :=
          [⟨"Jan", 45⟩, ⟨"Feb", 50⟩, ⟨"Mar", 55⟩, ⟨"Apr", 60⟩,
           ⟨"May", 65⟩, ⟨"Jun", 70⟩, ⟨"Jul", 80⟩, ⟨"Aug", 85⟩,
           ⟨"Sep", 60⟩, ⟨"Oct", 55⟩, ⟨"Nov", 50⟩, ⟨"Dec", 45⟩]
        best_time_to_visit := "Spring"
        forecast_summary := "f" }
    photography :=
      { basic_guide := "g"
        technical_settings :=
          { iso := "100", shutter_speed := "1/250", aperture := "f/8", notes := "n" } }
    trip_guide :=
      { transport_system := "t", travel_tips := ["tip"],
        packing_suggestions := ["p"], common_scams := "sc" } }

/-- A plan a stubbed upstream can return whose crowd curve has a single
entry with an out-of-range score. -/
def badPlan : TravelPlan :=
  { samplePlan with
      weather := { samplePlan.weather with crowd_curve := [⟨"Jan", 150⟩] } }

/-- A sample hidden gem. -/
def gem (n : String) : HiddenGem :=
  { name := n, description := "d", location_hint := "h" }

/-- A 3-element upstream array for the no-padding part of the truncation
property. -/
def gems3 : List HiddenGem := [gem "A", gem "B", gem "C"]

/-- A fresh TravelAgent state with a non-empty location. -/
def initialState : AgentState :=
  { location := "Kyoto, Japan", loading := false, mode := AgentMode.plan,
    activeTab := "overview", error := none, travelData := none, images := [],
    imagesLoading := false, hiddenSpots := none, hiddenSpotImages := [],
    chatSession := none, chatMessages := [], chatInput := "", chatLoading := false }

/-- A TravelAgent state with an open chat session and a pending input. -/
def chatState : AgentState :=
  { initialState with chatSession := some "ctx", chatInput := "hello" }

/-- A TravelAgent state with the empty location. -/
def emptyAgent : AgentState := { initialState with location := "" }

/-- A VeoGenerator state with the empty location name. -/
def emptyVeo : VeoState :=
  { locationName := "", aspectRatio := "16:9", status := VideoStatus.idle,
    videoUri := none, videoError := none, loadingStep := "" }

/-! ### Helper lemmas -/

/-- Unpacking string concatenation to character lists. -/
theorem data_append (a b : String) : (a ++ b).data = a.data ++ b.data := by
  cases a; cases b; rfl

/-- If p and q disagree within their first n characters and q is at least
n long, then p is a prefix of no extension of q. -/
theorem take_ne_not_prefix (p q r : List Char) (n : Nat)
    (hp : n ≤ p.length) (hq : n ≤ q.length) (hne : ¬ p.take n = q.take n) :
    p.isPrefixOf (q ++ r) = false := by
  cases hb : p.isPrefixOf (q ++ r) with
  | false => rfl
  | true =>
    exfalso
    have hpre : p <+: q ++ r := List.isPrefixOf_iff_prefix.mp hb
    have htk : p.take n <+: q ++ r := (List.take_prefix n p).trans hpre
    have h2 := List.prefix_iff_eq_take.mp htk
    rw [List.length_take, Nat.min_eq_left hp, List.take_append_of_le_length hq] at h2
    exact hne h2

/-! ### Claims -/

/-- C1: with a stub job that reports pending twice and terminal success on
the third query, generateDroneVideo issues exactly 3 status queries, each
preceded by the fixed 5000 ms wait and issued with the same handle, and
then resolves with the fetched video; in general, one non-terminal
iteration of the polling loop is exactly a 5000 ms wait followed by a
re-query with the handle currently held; and with a job that never turns
terminal the loop never stops by itself, for any amount of fuel — there is
no maximum retry count. -/
theorem c1_video_polling :
    (generateDroneVideo "img" submitOk poll3 fetchOk 5 =
      some { submittedBytes := "img"
             events := [PollEvent.wait 5000, PollEvent.query "veo-job-1",
                        PollEvent.wait 5000, PollEvent.query "veo-job-1",
                        PollEvent.wait 5000, PollEvent.query "veo-job-1"]
             result := Except.ok "blob:local-video" }) ∧
    (∀ (getOp : Nat → VideoOp → VideoOp) (fuel k : Nat) (op : VideoOp),
      op.done = false →
      pollLoop getOp (fuel + 1) k op =
        (pollLoop getOp fuel (k + 1) (getOp k op)).map
          (fun r => (PollEvent.wait 5000 :: PollEvent.query op.name :: r.1, r.2))) ∧
    (∀ fuel k : Nat, pollLoop (fun _ _ => pendOp) fuel k pendOp = none) := by
  refine ⟨rfl, ?_, ?_⟩
  · intro getOp fuel k op h
    rw [pollLoop, h]
    simp only [Bool.false_eq_true, if_false]
    cases h2 : pollLoop getOp fuel (k + 1) (getOp k op) with
    | none => simp
    | some val => obtain ⟨evs, fin⟩ := val; simp
  · intro fuel
    induction fuel with
    | zero => intro k; rw [pollLoop]; simp [show pendOp.done = false from rfl]
    | succ f ih => intro k; rw [pollLoop]; simp [show pendOp.done = false from rfl, ih]

/-- C1 witness: the loop-step equation instantiated on the pending stub
operation, the hypothesis that it is not terminal discharged by rfl. -/
theorem c1_video_polling_witness :
    pollLoop poll3 3 0 pendOp =
      (pollLoop poll3 2 1 (poll3 0 pendOp)).map
        (fun r => (PollEvent.wait 5000 :: PollEvent.query pendOp.name :: r.1, r.2)) :=
  c1_video_polling.2.1 poll3 2 0 pendOp rfl

/-- C2: whenever the upstream structured call yields text that parses to
the array l, searchHiddenSpots returns l.take 5, whose length is
min (length of l) 5: never more than 5 for any upstream size, and exactly
3 when the upstream returns 3 (no padding). -/
theorem c2_hidden_spots_truncation (t : String)
    (parse : String → Option (List HiddenGem)) (l : List HiddenGem)
    (ht : ¬ t = "") (hp : parse t = some l) :
    searchHiddenSpots (Except.ok t) parse = Except.ok (l.take 5) ∧
    (l.take 5).length = min l.length 5 ∧
    (l.take 5).length ≤ 5 ∧
    (l.length = 3 → (l.take 5).length = 3) := by
  refine ⟨?_, ?_, ?_, ?_⟩
  · simp [searchHiddenSpots, ht, hp]
  · simp [List.length_take, Nat.min_comm]
  · simp [List.length_take]
  · intro h3; simp [List.length_take, h3]

/-- C2 witness: a 3-element upstream array passes through with length
exactly 3, and the truncation bound is 5. -/
theorem c2_hidden_spots_truncation_witness :
    searchHiddenSpots (Except.ok "x") (fun _ => some gems3) = Except.ok (gems3.take 5) ∧
    (gems3.take 5).length = min gems3.length 5 ∧
    (gems3.take 5).length ≤ 5 ∧
    (gems3.length = 3 → (gems3.take 5).length = 3) :=
  c2_hidden_spots_truncation "x" (fun _ => some gems3) gems3 (by decide) rfl

/-- C3 counterexample: with a job whose terminal error text is boom, the
message generateDroneVideo propagates is the formatError wrapping
AI Request Failed: boom, which is not the job error text boom verbatim. -/
theorem c3_counterexample :
    generateDroneVideo "img" submitOk pollToError fetchOk 2 =
      some { submittedBytes := "img"
             events := [PollEvent.wait 5000, PollEvent.query "veo-job-1"]
             result := Except.error "AI Request Failed: boom" } ∧
    ¬ ("AI Request Failed: boom" = "boom") := by
  exact ⟨rfl, by decide⟩

/-- C3 amended: when the polling loop ends in a terminal error state whose
message m is non-empty, generateDroneVideo fails with formatError m — the
job error text passed through the error normaliser, not verbatim; when m
contains none of the classifier substrings, the propagated message is
AI Request Failed: followed by m, so the job text is carried as a suffix. -/
theorem c3_amended (img : String) (submit : String → Except String VideoOp)
    (getOp : Nat → VideoOp → VideoOp) (fetchVideo : String → Option String)
    (fuel : Nat) (op0 fin : VideoOp) (evs : List PollEvent) (m : String)
    (hsub : submit (cleanBase64 img) = Except.ok op0)
    (hpoll : pollLoop getOp fuel 0 op0 = some (evs, fin))
    (herr : fin.error = some m) (hm : ¬ m = "") :
    generateDroneVideo img submit getOp fetchVideo fuel =
      some { submittedBytes := cleanBase64 img
             events := evs
             result := Except.error (formatError m) } ∧
    (strContains m "API key" = false → strContains m "authentication" = false →
     strContains m "429" = false → strContains m "503" = false →
     strContains m "SAFETY" = false →
     formatError m = "AI Request Failed: " ++ m) := by
  constructor
  · simp only [generateDroneVideo, hsub, hpoll, droneVideoOutcome, herr, if_neg hm]
  · intro h1 h2 h3 h4 h5
    rw [formatError]
    simp [h1, h2, h3, h4, h5]

/-- C3 amended witness: the stub run ending in the boom error state. -/
theorem c3_amended_witness :
    generateDroneVideo "img" submitOk pollToError fetchOk 2 =
      some { submittedBytes := cleanBase64 "img"
             events := [PollEvent.wait 5000, PollEvent.query "veo-job-1"]
             result := Except.error (formatError "boom") } ∧
    (strContains "boom" "API key" = false →
     strContains "boom" "authentication" = false →
     strContains "boom" "429" = false → strContains "boom" "503" = false →
     strContains "boom" "SAFETY" = false →
     formatError "boom" = "AI Request Failed: " ++ "boom") :=
  c3_amended "img" submitOk pollToError fetchOk 2 pendOp errorOp
    [PollEvent.wait 5000, PollEvent.query "veo-job-1"] "boom" rfl rfl rfl (by decide)

/-- C4 counterexample: a successful run of generateDeepTravelItinerary can
return a plan whose crowd curve has a single entry with score 150 — the
orchestrator performs no validation, so the 12-entries-in-range property
does not hold of every successful run. -/
theorem c4_counterexample :
    generateDeepTravelItinerary (Except.ok "x") (fun _ => some badPlan) =
      Except.ok badPlan ∧
    ¬ crowdCurveWellFormed badPlan := by
  refine ⟨rfl, ?_⟩
  unfold crowdCurveWellFormed
  decide

/-- C4 amended: a successful run of the Itinerary Orchestrator returns the
parsed upstream plan verbatim, with no validation of weather.crowd_curve;
consequently the returned plan has exactly 12 entries each scored within 0
to 100 exactly when the upstream plan does (the prompt requests this
shape, but the code does not enforce it). -/
theorem c4_amended (t : String) (parse : String → Option TravelPlan)
    (plan : TravelPlan) (ht : ¬ t = "") (hp : parse t = some plan) :
    generateDeepTravelItinerary (Except.ok t) parse = Except.ok plan ∧
    (crowdCurveWellFormed plan →
      ∃ q, generateDeepTravelItinerary (Except.ok t) parse = Except.ok q ∧
        crowdCurveWellFormed q) := by
  have hok : generateDeepTravelItinerary (Except.ok t) parse = Except.ok plan := by
    simp [generateDeepTravelItinerary, ht, hp]
  exact ⟨hok, fun hc => ⟨plan, hok, hc⟩⟩

/-- C4 amended witness: a stubbed upstream returning the sample well-formed
plan passes through verbatim with its well-formed curve. -/
theorem c4_amended_witness :
    generateDeepTravelItinerary (Except.ok "x") (fun _ => some samplePlan) =
      Except.ok samplePlan ∧
    (crowdCurveWellFormed samplePlan →
      ∃ q, generateDeepTravelItinerary (Except.ok "x") (fun _ => some samplePlan) =
        Except.ok q ∧ crowdCurveWellFormed q) :=
  c4_amended "x" (fun _ => some samplePlan) samplePlan (by decide) rfl

/-- C5: generateLocationPreviews is total (no failure aborts it) and
returns exactly the successful images, wrapped as data URIs, in request
order; with all 3 requests failed it returns the empty list, and the
Itinerary Orchestrator still resolves: handleDeepPlan on a successful
itinerary with the empty preview set stores the plan and no error. -/
theorem c5_preview_failures (raw : List (Option String)) (s : AgentState)
    (plan : TravelPlan) (serialize : TravelPlan → String)
    (hloc : ¬ s.location = "") :
    generateLocationPreviews raw = (raw.filterMap id).map previewDataUri ∧
    generateLocationPreviews [none, none, none] = ([] : List String) ∧
    (handleDeepPlan s (Except.ok plan)
      (generateLocationPreviews [none, none, none]) serialize).1.travelData =
        some plan ∧
    (handleDeepPlan s (Except.ok plan)
      (generateLocationPreviews [none, none, none]) serialize).1.error = none := by
  refine ⟨?_, rfl, ?_, ?_⟩
  · simp [generateLocationPreviews, List.filterMap_map, List.map_filterMap,
      Function.comp]
  · simp [handleDeepPlan, hloc, clearResults]
  · simp [handleDeepPlan, hloc, clearResults]

/-- C5 witness: a mixed outcome keeps the two successes in order, and the
all-failed case still stores the sample plan. -/
theorem c5_preview_failures_witness :
    generateLocationPreviews [some "a", none, some "b"] =
      ([some "a", none, some "b"].filterMap id).map previewDataUri ∧
    generateLocationPreviews [none, none, none] = ([] : List String) ∧
    (handleDeepPlan initialState (Except.ok samplePlan)
      (generateLocationPreviews [none, none, none]) (fun _ => "ctx")).1.travelData =
        some samplePlan ∧
    (handleDeepPlan initialState (Except.ok samplePlan)
      (generateLocationPreviews [none, none, none]) (fun _ => "ctx")).1.error = none :=
  c5_preview_failures [some "a", none, some "b"] initialState samplePlan
    (fun _ => "ctx") (by decide)

/-- C6: a structured response whose text fails to parse, or is empty,
makes both orchestrators abort with their distinguishable parse-failure
or empty-response error message (wrapped by formatError into the
AI Request Failed prefix), never an ok value. -/
theorem c6_malformed_response (t : String)
    (parseP : String → Option TravelPlan)
    (parseG : String → Option (List HiddenGem))
    (ht : ¬ t = "") (hP : parseP t = none) (hG : parseG t = none) :
    generateDeepTravelItinerary (Except.ok t) parseP =
      Except.error "AI Request Failed: Failed to parse the travel plan data." ∧
    searchHiddenSpots (Except.ok t) parseG =
      Except.error "AI Request Failed: Failed to parse hidden spots data." ∧
    generateDeepTravelItinerary (Except.ok "") parseP =
      Except.error "AI Request Failed: The model returned an empty response." ∧
    searchHiddenSpots (Except.ok "") parseG =
      Except.error "AI Request Failed: No results found for hidden spots." := by
  refine ⟨?_, ?_, ?_, ?_⟩
  · simp only [generateDeepTravelItinerary, if_neg ht, hP]; rfl
  · simp only [searchHiddenSpots, if_neg ht, hG]; rfl
  · rfl
  · rfl

/-- C6 witness: the abort messages on a stub upstream whose text never
parses. -/
theorem c6_malformed_response_witness :
    generateDeepTravelItinerary (Except.ok "x") (fun _ => none) =
      Except.error "AI Request Failed: Failed to parse the travel plan data." ∧
    searchHiddenSpots (Except.ok "x") (fun _ => none) =
      Except.error "AI Request Failed: Failed to parse hidden spots data." ∧
    generateDeepTravelItinerary (Except.ok "") (fun _ => none) =
      Except.error "AI Request Failed: The model returned an empty response." ∧
    searchHiddenSpots (Except.ok "") (fun _ => none) =
      Except.error "AI Request Failed: No results found for hidden spots." :=
  c6_malformed_response "x" (fun _ => none) (fun _ => none) (by decide) rfl rfl

/-- C7 counterexample: the strip is not performed for every data-URI
prefix: a webp data URI is submitted unchanged, not with its prefix
removed. -/
theorem c7_counterexample :
    ("data:image/webp;base64," ++ "AAAA" = "data:image/webp;base64,AAAA") ∧
    (generateDroneVideo "data:image/webp;base64,AAAA" submitOk poll3 fetchOk 5).map
      (fun r => r.submittedBytes) = some "data:image/webp;base64,AAAA" ∧
    ¬ ("data:image/webp;base64,AAAA" = "AAAA") := by
  exact ⟨rfl, rfl, by decide⟩

/-- C7 amended: the video stage strips a leading data-URI prefix of the
three forms the source regex matches — png, jpeg and jpg base64 image
URIs — and submits the input otherwise unchanged: the submitted bytes of
every completed run equal cleanBase64 of the input. -/
theorem c7_amended (rest img : String) (submit : String → Except String VideoOp)
    (getOp : Nat → VideoOp → VideoOp) (fetchVideo : String → Option String)
    (fuel : Nat) (run : DroneVideoRun) :
    cleanBase64 ("data:image/png;base64," ++ rest) = rest ∧
    cleanBase64 ("data:image/jpeg;base64," ++ rest) = rest ∧
    cleanBase64 ("data:image/jpg;base64," ++ rest) = rest ∧
    (generateDroneVideo img submit getOp fetchVideo fuel = some run →
      run.submittedBytes = cleanBase64 img) := by
  refine ⟨?_, ?_, ?_, ?_⟩
  · unfold cleanBase64
    rw [if_pos]
    · rw [data_append, List.drop_left' (by decide)]
    · rw [data_append]
      exact List.isPrefixOf_iff_prefix.mpr (List.prefix_append _ _)
  · unfold cleanBase64
    rw [data_append,
      take_ne_not_prefix _ _ _ 14 (by decide) (by decide) (by decide)]
    simp only [Bool.false_eq_true, if_false]
    rw [if_pos (List.isPrefixOf_iff_prefix.mpr (List.prefix_append _ _)),
      List.drop_left' (by decide)]
  · unfold cleanBase64
    rw [data_append,
      take_ne_not_prefix _ _ _ 14 (by decide) (by decide) (by decide),
      take_ne_not_prefix _ _ _ 14 (by decide) (by decide) (by decide)]
    simp only [Bool.false_eq_true, if_false]
    rw [if_pos (List.isPrefixOf_iff_prefix.mpr (List.prefix_append _ _)),
      List.drop_left' (by decide)]
  · intro h
    simp only [generateDroneVideo] at h
    cases hsub : submit (cleanBase64 img) with
    | error e =>
      simp only [hsub, Option.some.injEq] at h
      subst h; rfl
    | ok op0 =>
      simp only [hsub] at h
      cases hpl : pollLoop getOp fuel 0 op0 with
      | none => rw [hpl] at h; cases h
      | some val =>
        obtain ⟨evs, fin⟩ := val
        simp only [hpl, Option.some.injEq] at h
        subst h; rfl

/-- C7 amended witness: the png prefix is stripped and the stub run
submits exactly the cleaned bytes. -/
theorem c7_amended_witness :
    cleanBase64 ("data:image/png;base64," ++ "AAAA") = "AAAA" ∧
    pngRun.submittedBytes = cleanBase64 "data:image/png;base64,AAAA" :=
  ⟨(c7_amended "AAAA" "x" submitOk poll3 fetchOk 0 pngRun).1,
   (c7_amended "AAAA" "data:image/png;base64,AAAA" submitOk poll3 fetchOk 5
      pngRun).2.2.2 rfl⟩

/-- C8: when the guard passes and the send fails, the handler appends the
optimistic user message and exactly one model-role message with the fixed
fallback text, clears the input, and ends loading; the resulting state is
the same for every raw error string, so the raw error never surfaces. -/
theorem c8_chat_failure_fallback (s : AgentState) (err idU idM : String)
    (h1 : ¬ jsTrim s.chatInput = "") (h2 : ¬ s.chatSession = none) :
    handleSendMessage s (Except.error err) idU idM =
      ({ s with chatInput := "", chatLoading := false,
                chatMessages := s.chatMessages ++
                  [ChatMessage.mk idU ChatRole.user s.chatInput,
                   ChatMessage.mk idM ChatRole.model
                     "Sorry, I encountered an error answering that."] }, true) := by
  rw [handleSendMessage]
  simp [h1, h2, Option.isNone_iff_eq_none]

/-- C8 witness: the failure path on the sample open-chat state. -/
theorem c8_chat_failure_fallback_witness :
    handleSendMessage chatState (Except.error "raw upstream failure") "7" "8" =
      ({ chatState with chatInput := "", chatLoading := false,
                        chatMessages := chatState.chatMessages ++
                          [ChatMessage.mk "7" ChatRole.user chatState.chatInput,
                           ChatMessage.mk "8" ChatRole.model
                             "Sorry, I encountered an error answering that."] }, true) :=
  c8_chat_failure_fallback chatState "raw upstream failure" "7" "8"
    (by decide) (by decide)

/-- C9: with no open session, or an input that trims to empty, sending is
a no-op: the state is returned unchanged and no request is issued. -/
theorem c9_chat_noop (s : AgentState) (sendRes : Except String String)
    (idU idM : String) (h : jsTrim s.chatInput = "" ∨ s.chatSession = none) :
    handleSendMessage s sendRes idU idM = (s, false) := by
  rw [handleSendMessage]
  rcases h with h | h <;> simp [h]

/-- C9 witness: the fresh state has no session and an empty input. -/
theorem c9_chat_noop_witness :
    handleSendMessage initialState (Except.ok "hi") "1" "2" = (initialState, false) :=
  c9_chat_noop initialState (Except.ok "hi") "1" "2" (Or.inl (by decide))

/-- C10: with the empty location string each entry point — handleDeepPlan,
handleHiddenSpots and the video handleGenerate — returns its state
unchanged and issues no external request. -/
theorem c10_empty_location_noop (s : AgentState) (v : VeoState)
    (itinRes : Except String TravelPlan) (previewImgs : List String)
    (serialize : TravelPlan → String)
    (spotsRes : Except String (List HiddenGem)) (spotImg : String → Option String)
    (refRes : Except String String) (videoRes : String → Except String String)
    (hs : s.location = "") (hv : v.locationName = "") :
    handleDeepPlan s itinRes previewImgs serialize = (s, false) ∧
    handleHiddenSpots s spotsRes spotImg = (s, false) ∧
    handleGenerate v refRes videoRes = (v, false) := by
  refine ⟨?_, ?_, ?_⟩
  · rw [handleDeepPlan]; simp [hs]
  · rw [handleHiddenSpots]; simp [hs]
  · rw [handleGenerate]; simp [hv]

/-- C10 witness: the guards fire on the empty-location fixtures. -/
theorem c10_empty_location_noop_witness :
    handleDeepPlan emptyAgent (Except.ok samplePlan) [] (fun _ => "ctx") =
      (emptyAgent, false) ∧
    handleHiddenSpots emptyAgent (Except.ok gems3) (fun _ => none) =
      (emptyAgent, false) ∧
    handleGenerate emptyVeo (Except.ok "img") (fun _ => Except.ok "url") =
      (emptyVeo, false) :=
  c10_empty_location_noop emptyAgent emptyVeo (Except.ok samplePlan) []
    (fun _ => "ctx") (Except.ok gems3) (fun _ => none) (Except.ok "img")
    (fun _ => Except.ok "url") rfl rfl
